import Mathlib

/-!
Shallow embedding of `pkg/bgpv1/agent/controller.go` (Cilium BGP Control
Plane agent controller): the `Signaler`, the pure `PolicySelection`
function, the `Reconcile` procedure, the `Run` control loop, `NewController`
and `FullWithdrawal`, together with theorems about them.

Effectful calls (policy listing, node label/annotation/CIDR retrieval, the
backend `ConfigurePeers` call) are embedded by passing the outcome of each
external call explicitly in a `ReconcileEnv` record; `Reconcile` then
returns the ordered list of backend calls it issued together with its error
result, mirroring the Go control flow statement by statement.
-/

namespace BGPAgent

/-- A node's label set, as in Go a `map[string]string` (here an association
list; the controller only ever passes it through to selector matching). -/
abbrev Labels := List (String × String)

/-- Modelled from the spec: a policy's node-selector.  The spec treats a
node-selector purely as a "predicate over label sets determining which nodes
a policy applies to", whose conversion to a matcher
(`slimmetav1.LabelSelectorAsSelector`, in `pkg/k8s/slim`, not part of the
sources given) can fail with a parse error; per the spec, "a
selector-parsing failure for an individual candidate is logged and that
candidate is excluded from matching (treated as non-matching)".  We model a
selector as a flag saying whether conversion succeeds together with the
predicate it converts to. -/
structure NodeSelector where
  /-- whether `LabelSelectorAsSelector` succeeds on this selector -/
  parses : Bool
  /-- the predicate over label sets the selector converts to -/
  matcher : Labels → Bool

/-- A CiliumBGPPeeringPolicy as far as the controller inspects it: the
controller reads only `policy.Spec.NodeSelector`; everything else is opaque
payload handed to the backend. -/
structure CiliumBGPPeeringPolicy where
  name : String
  nodeSelector : NodeSelector

/-- Modelled from the spec: `slimmetav1.LabelSelectorAsSelector`
(`pkg/k8s/slim/k8s/apis/meta/v1`, not part of the sources given) converts a
policy's node-selector into a matching predicate, or fails with a parse
error. -/
def LabelSelectorAsSelector (s : NodeSelector) :
    Except String (Labels → Bool) :=
  if s.parses then .ok s.matcher else .error "invalid label selector"

/-- The selection error: the Go code has a single static selection error,
`ErrMultiplePolicies` ("more then one CiliumBGPPeeringPolicy applies to this
node ..."), returned when more than one policy matches. -/
inductive SelectionError where
  | multiplePolicies
deriving DecidableEq, Repr

/-- Whether one candidate policy matches the node's labels, exactly as the
body of the `PolicySelection` loop decides it: convert the selector
(conversion failure excludes the candidate, see `NodeSelector`), then apply
the converted predicate to the node's labels. -/
def policyMatches (slimLabels : Labels) (policy : CiliumBGPPeeringPolicy) :
    Bool :=
  match LabelSelectorAsSelector policy.nodeSelector with
  | .error _ => false
  | .ok sel => sel slimLabels

/-- The `for _, policy := range policies` loop of `PolicySelection`, with
`selected` the loop-carried `selected *CiliumBGPPeeringPolicy` variable:
on a match, if a policy was already selected return `ErrMultiplePolicies`
immediately, else record the match and continue. -/
def policySelectionLoop (slimLabels : Labels)
    (selected : Option CiliumBGPPeeringPolicy) :
    List CiliumBGPPeeringPolicy →
      Except SelectionError (Option CiliumBGPPeeringPolicy)
  | [] => .ok selected
  | policy :: rest =>
    if policyMatches slimLabels policy then
      match selected with
      | some _ => .error .multiplePolicies
      | none => policySelectionLoop slimLabels (some policy) rest
    else
      policySelectionLoop slimLabels selected rest

/-- Go `PolicySelection(ctx, labels, policies)`: returns the policy applying to
the node carrying `labels`, if any; an error if more than one matches.  The
`ctx` parameter of the Go function is unused by it and omitted. -/
def PolicySelection (labels : Labels)
    (policies : List CiliumBGPPeeringPolicy) :
    Except SelectionError (Option CiliumBGPPeeringPolicy) :=
  policySelectionLoop labels none policies

/-- Outcome of selection as a function of the matching candidates only:
none match, exactly one matches, more than one matches.  Used to relate
`PolicySelection` to the multiset of matching policies. -/
def selectionOf :
    List CiliumBGPPeeringPolicy →
      Except SelectionError (Option CiliumBGPPeeringPolicy)
  | [] => .ok none
  | [p] => .ok (some p)
  | _ :: _ :: _ => .error .multiplePolicies

/-- The `Signaler` multiplexes event sources into a single level-triggered
event.  The Go struct holds `Sig chan struct{}`; a buffered channel of
`struct{}` tokens is embedded as its capacity together with the number of
tokens currently buffered. -/
structure Signaler where
  /-- buffer capacity of the `Sig` channel fixed at `make(chan struct\x7b\x7d, n)` -/
  capacity : Nat
  /-- number of tokens currently buffered in the channel -/
  pending : Nat
deriving DecidableEq, Repr

/-- Go `NewSignaler()` constructs a Signaler over `make(chan struct\x7b\x7d, 1)`:
capacity one, initially empty. -/
def NewSignaler : Signaler :=
  { capacity := 1, pending := 0 }

/-- Go `Signaler.Event(_ interface\x7b\x7d)`: a `select` with a send on `s.Sig`
and a `default` branch — the send succeeds exactly when the buffer has a
free slot, otherwise the call is a no-op; it never blocks.  The payload
parameter is ignored by the Go code and omitted. -/
def Signaler.Event (s : Signaler) : Signaler :=
  if s.pending < s.capacity then { s with pending := s.pending + 1 } else s

/-- A sequence of `n` successive `Event()` calls on a Signaler. -/
def eventCalls : Nat → Signaler → Signaler
  | 0, s => s
  | n + 1, s => eventCalls n s.Event

/-- Modelled from the spec: the `AnnotationMap` produced by
`NewAnnotationMap` (in `pkg/bgpv1/agent`, not part of the sources given) —
"parsed structure derived from a node's raw string-keyed annotations;
construction fails on malformed entries — never partially populated".  The
controller only threads the parsed structure through to the backend, so its
inner shape is opaque here: we record the raw entries it was parsed from. -/
structure AnnotationMap where
  entries : List (String × String)

/-- The `ControlPlaneState`: the point-in-time snapshot assembled by `Reconcile`
and handed to the backend — pod CIDRs, parsed annotations, and the node's
current IPv4/IPv6 addresses (`net.IP` values, which may be nil; embedded as
optional strings). -/
structure ControlPlaneState where
  podCIDRs : List String
  annotations : AnnotationMap
  ipv4 : Option String
  ipv6 : Option String

/-- One call to the backend `BGPRouterManager`: `ConfigurePeers(ctx, policy,
state)`.  `configurePeers none none` is the full-withdrawal form. -/
inductive BackendCall where
  | configurePeers (policy : Option CiliumBGPPeeringPolicy)
      (state : Option ControlPlaneState)

/-- The outcome of each external call one `Reconcile` attempt can make,
passed explicitly: the list result of `c.PolicyLister.List`, the results of
`c.NodeSpec.Labels()/Annotations()/PodCIDRs()`, the parse function
`NewAnnotationMap` (modelled from the spec, see `AnnotationMap`), the node
addresses `nodeaddr.GetIPv4()/GetIPv6()`, and the backend's response to a
`ConfigurePeers` call (`none` = success, `some e` = error `e`). -/
structure ReconcileEnv where
  listPolicies : Except String (List CiliumBGPPeeringPolicy)
  labels : Except String Labels
  annotations : Except String (List (String × String))
  newAnnotationMap : List (String × String) → Except String AnnotationMap
  podCIDRs : Except String (List String)
  ipv4 : Option String
  ipv6 : Option String
  configurePeers : Option CiliumBGPPeeringPolicy → Option ControlPlaneState →
    Option String

/-- The errors `Reconcile` can return, one constructor per `return`-with-
error site in the Go code, carrying the wrapped inner error where the Go
code wraps one (`fmt.Errorf("...: %w", err)`); the policy-listing failure
drops the inner error, as the Go code does. -/
inductive ReconcileError where
  | listPoliciesFailed
  | labelsFailed (e : String)
  | selectionFailed (e : SelectionError)
  | annotationsFailed (e : String)
  | annotationParseFailed (e : String)
  | podCIDRsFailed (e : String)
  | configurePeersFailed (e : String)
deriving DecidableEq, Repr

/-- Whether a `Reconcile` error is one of the spec's *retrieval errors*:
failure to list policies or to read the node's labels, annotations or pod
CIDR ranges. -/
def ReconcileError.isRetrievalError : ReconcileError → Bool
  | .listPoliciesFailed => true
  | .labelsFailed _ => true
  | .annotationsFailed _ => true
  | .podCIDRsFailed _ => true
  | _ => false

/-- The calls emitted by one `FullWithdrawal`: a single
`ConfigurePeers(ctx, nil, nil)`. -/
def FullWithdrawalCalls : List BackendCall :=
  [BackendCall.configurePeers none none]

/-- Go `Controller.FullWithdrawal`: instructs the backend to withdraw all BGP
servers and peers via `ConfigurePeers(ctx, nil, nil)`, discarding the
backend's error result (`_ = c.BGPMgr.ConfigurePeers(...)`); it returns
normally whatever the backend answered, hence the error-free return type. -/
def FullWithdrawal (env : ReconcileEnv) : List BackendCall :=
  let _ := env.configurePeers none none
  FullWithdrawalCalls

/-- Go `Controller.Reconcile(ctx)`, statement by statement: list policies,
read labels, run `PolicySelection`; on selection error issue a full
withdrawal and return the error; with no matching policy issue a full
withdrawal and return nil; with a selected policy read annotations, parse
them with `NewAnnotationMap`, read pod CIDRs, assemble the
`ControlPlaneState` snapshot and call `ConfigurePeers(ctx, policy, state)`.
Returns the ordered list of backend calls issued and the error result. -/
def Reconcile (env : ReconcileEnv) :
    List BackendCall × Option ReconcileError :=
  match env.listPolicies with
  | .error _ => ([], some .listPoliciesFailed)
  | .ok policies =>
    match env.labels with
    | .error e => ([], some (.labelsFailed e))
    | .ok labels =>
      match PolicySelection labels policies with
      | .error err => (FullWithdrawal env, some (.selectionFailed err))
      | .ok none => (FullWithdrawal env, none)
      | .ok (some policy) =>
        match env.annotations with
        | .error e => ([], some (.annotationsFailed e))
        | .ok annotations =>
          match env.newAnnotationMap annotations with
          | .error e => ([], some (.annotationParseFailed e))
          | .ok annoMap =>
            match env.podCIDRs with
            | .error e => ([], some (.podCIDRsFailed e))
            | .ok podCIDRs =>
              let state : ControlPlaneState :=
                { podCIDRs := podCIDRs, annotations := annoMap,
                  ipv4 := env.ipv4, ipv6 := env.ipv6 }
              match env.configurePeers (some policy) (some state) with
              | some e =>
                ([BackendCall.configurePeers (some policy) (some state)],
                  some (.configurePeersFailed e))
              | none =>
                ([BackendCall.configurePeers (some policy) (some state)],
                  none)

/-- Go `1 * time.Minute`, the timeout of the shutdown-withdrawal context, in
nanoseconds (Go `time.Duration` units). -/
def timeMinute : Nat := 60 * 1000000000

/-- One observed outcome of the `select` in `Controller.Run`'s loop: either
the loop context is found cancelled, or a signal is drained from
`c.Sig.Sig`; a drained signal carries the state of the world (the
`ReconcileEnv`) the ensuing `Reconcile` attempt observes. -/
inductive LoopEvent where
  | ctxDone
  | signal (env : ReconcileEnv)

/-- An action taken by `Controller.Run`: one `Reconcile` attempt (with the
backend calls it issued and its error result, which `Run` only logs), or
the shutdown `FullWithdrawal` under a fresh context with the recorded
timeout. -/
inductive LoopAction where
  | reconcileAttempt (calls : List BackendCall) (err : Option ReconcileError)
  | shutdownWithdrawal (timeoutNanos : Nat) (calls : List BackendCall)

/-- Go `Controller.Run(ctx)` as its `for \x7b select \x7d` loop over the observed
sequence of select outcomes: on `ctx.Done()`, perform one `FullWithdrawal`
under a fresh 1-minute context and return (any later events are never
looked at); on a signal, run `Reconcile`, log its outcome, and loop.  An
exhausted event list is a loop still blocked in `select`, which has acted
no further. -/
def Run : List LoopEvent → List LoopAction
  | [] => []
  | .ctxDone :: _ =>
    [.shutdownWithdrawal timeMinute FullWithdrawalCalls]
  | .signal env :: rest =>
    .reconcileAttempt (Reconcile env).1 (Reconcile env).2 :: Run rest

/-- Modelled from the spec: the active IPAM mode read from
`params.DaemonConfig.IPAM` — the constants `ipamOption.IPAMClusterPool`,
`IPAMClusterPoolV2` and `IPAMKubernetes` live in `pkg/ipam/option`, not in
the sources given, so the mode is embedded as one case per constant the
`switch` in `NewController` distinguishes, plus any other value. -/
inductive IPAMMode where
  | clusterPool
  | clusterPoolV2
  | kubernetes
  | other (s : String)
deriving DecidableEq, Repr

/-- The subset of `*option.DaemonConfig` that `NewController` reads: the
enablement gate `BGPControlPlaneEnabled()` and the IPAM mode. -/
structure DaemonConfig where
  bgpControlPlaneEnabled : Bool
  ipam : IPAMMode
deriving DecidableEq, Repr

/-- Which `nodeSpecer` variant `NewController` wires: the one backed by the
corev1 Kubernetes Node resource (`configureForK8sIPAM`) or the one backed
by Cilium's v2 CiliumNode resource (`configureForClusterPoolIPAM`). -/
inductive NodeSpecerKind where
  | kubernetesNodeSpecer
  | ciliumNodeSpecer
deriving DecidableEq, Repr

/-- The controller as far as construction determines it: the chosen
`nodeSpecer` variant and the freshly constructed Signaler. -/
structure ControllerModel where
  nodeSpec : NodeSpecerKind
  sig : Signaler
deriving DecidableEq, Repr

/-- Result of `NewController(params)`: the `(*Controller, error)` pair
together with whether `params.Lifecycle.Append(&c)` was reached. -/
structure NewControllerResult where
  controller : Option ControllerModel
  err : Option String
  lifecycleAppended : Bool
deriving DecidableEq, Repr

/-- Go `NewController(params)`: if the BGP control plane is disabled, return
`(nil, nil)` before any other work — in particular before the lifecycle
hook is appended; otherwise wire the `nodeSpecer` variant by the IPAM mode
(ClusterPool/ClusterPoolV2 → CiliumNode-backed, Kubernetes → corev1
Node-backed, anything else → error), and only then append the lifecycle
hook and return the controller. -/
def NewController (cfg : DaemonConfig) : NewControllerResult :=
  if !cfg.bgpControlPlaneEnabled then
    { controller := none, err := none, lifecycleAppended := false }
  else
    match cfg.ipam with
    | .clusterPoolV2 | .clusterPool =>
      { controller := some { nodeSpec := .ciliumNodeSpecer, sig := NewSignaler },
        err := none, lifecycleAppended := true }
    | .kubernetes =>
      { controller := some { nodeSpec := .kubernetesNodeSpecer, sig := NewSignaler },
        err := none, lifecycleAppended := true }
    | .other _ =>
      { controller := none,
        err := some "failed to determine a compatible IPAM mode, cannot initialize BGP control plane",
        lifecycleAppended := false }

/-- The `nodeSpecer` variant the IPAM mode dictates, `none` when the mode is
incompatible; stated by the `switch` in `NewController`. -/
def specerForIPAM : IPAMMode → Option NodeSpecerKind
  | .clusterPoolV2 | .clusterPool => some .ciliumNodeSpecer
  | .kubernetes => some .kubernetesNodeSpecer
  | .other _ => none

/-! Concrete sample data used by the witness theorems. -/

/-- Sample node label set. -/
def demoLabels : Labels := [("role", "edge")]

/-- A selector that converts successfully and matches nodes labelled
`role=edge`. -/
def edgeSelector : NodeSelector :=
  { parses := true,
    matcher := fun ls => ls.any fun kv => kv.1 == "role" && kv.2 == "edge" }

/-- A policy whose selector matches `demoLabels`. -/
def demoPolicyA : CiliumBGPPeeringPolicy :=
  { name := "policy-a", nodeSelector := edgeSelector }

/-- A second policy whose selector also matches `demoLabels`. -/
def demoPolicyB : CiliumBGPPeeringPolicy :=
  { name := "policy-b", nodeSelector := edgeSelector }

/-- A policy whose selector converts but matches no label set. -/
def demoNoMatchPolicy : CiliumBGPPeeringPolicy :=
  { name := "policy-nomatch",
    nodeSelector := { parses := false || true, matcher := fun _ => false } }

/-- A policy whose selector fails to convert; its matcher would accept every
node, but conversion failure must exclude it. -/
def demoBadPolicy : CiliumBGPPeeringPolicy :=
  { name := "policy-bad",
    nodeSelector := { parses := false, matcher := fun _ => true } }

/-- An annotation parse that succeeds on every input. -/
def demoAnnoOk : List (String × String) → Except String AnnotationMap :=
  fun entries => .ok { entries := entries }

/-- An annotation parse that fails on every input (malformed annotations). -/
def demoAnnoFail : List (String × String) → Except String AnnotationMap :=
  fun _ => .error "malformed annotation"

/-- A backend that accepts every `ConfigurePeers` call. -/
def demoBackendOk :
    Option CiliumBGPPeeringPolicy → Option ControlPlaneState →
      Option String :=
  fun _ _ => none

/-- A backend that fails every `ConfigurePeers` call, the full-withdrawal
form included. -/
def demoBackendFail :
    Option CiliumBGPPeeringPolicy → Option ControlPlaneState →
      Option String :=
  fun _ _ => some "backend unavailable"

/-- A baseline environment in which every external call succeeds. -/
def demoEnvBase : ReconcileEnv :=
  { listPolicies := .ok [demoPolicyA],
    labels := .ok demoLabels,
    annotations := .ok [],
    newAnnotationMap := demoAnnoOk,
    podCIDRs := .ok ["10.0.1.0/24"],
    ipv4 := some "192.0.2.5",
    ipv6 := none,
    configurePeers := demoBackendOk }

/-! Lemmas about the `PolicySelection` loop. -/

/-- Once a policy is selected, the rest of the loop returns
`ErrMultiplePolicies` exactly when some remaining candidate also matches,
and otherwise keeps the selected policy. -/
lemma policySelectionLoop_some (L : Labels) (s : CiliumBGPPeeringPolicy)
    (ps : List CiliumBGPPeeringPolicy) :
    policySelectionLoop L (some s) ps =
      if ps.any (policyMatches L) then .error .multiplePolicies
      else .ok (some s) := by
  induction ps with
  | nil => simp [policySelectionLoop]
  | cons p rest ih =>
    by_cases h : policyMatches L p = true
    · simp [policySelectionLoop, h]
    · simp only [Bool.not_eq_true] at h
      simp [policySelectionLoop, h, ih]

/-- Starting from no selected policy, the loop's outcome is determined by
the sublist of matching candidates: none → `ok none`, exactly one → that
policy, two or more → `ErrMultiplePolicies`. -/
lemma policySelectionLoop_none (L : Labels)
    (ps : List CiliumBGPPeeringPolicy) :
    policySelectionLoop L none ps =
      selectionOf (ps.filter (policyMatches L)) := by
  induction ps with
  | nil => simp [policySelectionLoop, selectionOf]
  | cons p rest ih =>
    by_cases h : policyMatches L p = true
    · rw [List.filter_cons_of_pos h]
      simp only [policySelectionLoop, h, if_pos]
      rw [policySelectionLoop_some]
      by_cases h2 : rest.any (policyMatches L) = true
      · obtain ⟨q, hq, hmq⟩ := List.any_eq_true.mp h2
        cases hf : rest.filter (policyMatches L) with
        | nil =>
          exact absurd hmq (List.filter_eq_nil_iff.mp hf q hq)
        | cons q2 more => simp [h2, hf, selectionOf]
      · have hnil : rest.filter (policyMatches L) = [] := by
          refine List.filter_eq_nil_iff.mpr fun a ha hma => ?_
          exact h2 (List.any_eq_true.mpr ⟨a, ha, hma⟩)
        simp [h2, hnil, selectionOf]
    · simp only [Bool.not_eq_true] at h
      rw [List.filter_cons_of_neg (by simp [h])]
      simp [policySelectionLoop, h, ih]

/-- Bridging lemma: `PolicySelection` is `selectionOf` of the matching candidates. -/
lemma policySelection_eq_selectionOf (L : Labels)
    (P : List CiliumBGPPeeringPolicy) :
    PolicySelection L P = selectionOf (P.filter (policyMatches L)) :=
  policySelectionLoop_none L P

/-- The outcome `selectionOf` only depends on the matching candidates up to
permutation. -/
lemma selectionOf_perm {l l' : List CiliumBGPPeeringPolicy}
    (h : l.Perm l') : selectionOf l = selectionOf l' := by
  match l, l' with
  | [], l' =>
    rw [← h.nil_eq]
  | [p], l' =>
    rw [List.perm_singleton.mp h.symm]
  | p :: q :: more, l' =>
    have hlen : l'.length = more.length + 2 := by
      simpa using h.length_eq.symm
    match l' with
    | [] => simp at hlen
    | [r] => simp at hlen
    | r :: s :: more2 => simp [selectionOf]

/-- C1: For every label set `L` and list of policies `P`, `PolicySelection`
returns `ok none` when no candidate's node selector matches `L`, the unique
matching policy (and no error) when exactly one candidate matches, and the
`ErrMultiplePolicies` error (with no policy applied) when two or more
candidates match.  "Exactly one candidate matches" is stated as the sublist
of matching candidates being the singleton of that policy. -/
theorem policySelection_correct (L : Labels)
    (P : List CiliumBGPPeeringPolicy) :
    ((P.filter (policyMatches L)).length = 0 →
        PolicySelection L P = .ok none) ∧
    (∀ p, P.filter (policyMatches L) = [p] →
        PolicySelection L P = .ok (some p)) ∧
    (2 ≤ (P.filter (policyMatches L)).length →
        PolicySelection L P = .error .multiplePolicies) := by
  refine ⟨fun h => ?_, fun p h => ?_, fun h => ?_⟩
  · rw [policySelection_eq_selectionOf, List.length_eq_zero.mp h]
    rfl
  · rw [policySelection_eq_selectionOf, h]
    rfl
  · rw [policySelection_eq_selectionOf]
    match hf : P.filter (policyMatches L) with
    | [] => rw [hf] at h; simp at h
    | [p] => rw [hf] at h; simp at h
    | p :: q :: more => rfl

/-- Witness for C1: zero, one and two matching candidates on concrete
inputs. -/
theorem policySelection_correct_witness :
    PolicySelection demoLabels [demoNoMatchPolicy] = .ok none ∧
    PolicySelection demoLabels [demoPolicyA, demoNoMatchPolicy] =
      .ok (some demoPolicyA) ∧
    PolicySelection demoLabels [demoPolicyA, demoPolicyB] =
      .error .multiplePolicies :=
  ⟨(policySelection_correct demoLabels [demoNoMatchPolicy]).1 rfl,
   (policySelection_correct demoLabels [demoPolicyA, demoNoMatchPolicy]).2.1
     demoPolicyA rfl,
   (policySelection_correct demoLabels [demoPolicyA, demoPolicyB]).2.2
     (Nat.le_refl 2)⟩

/-- C2: The outcome of `PolicySelection` — which policy is selected, or
that the `ErrMultiplePolicies` error occurs — is invariant under every
permutation of the candidate list: the ambiguity check counts all matching
candidates rather than stopping at the first match. -/
theorem policySelection_perm_invariant (L : Labels)
    {P Q : List CiliumBGPPeeringPolicy} (h : P.Perm Q) :
    PolicySelection L P = PolicySelection L Q := by
  rw [policySelection_eq_selectionOf, policySelection_eq_selectionOf]
  exact selectionOf_perm (h.filter (policyMatches L))

/-- Witness for C2: both orders of a two-candidate list with one match give
the same outcome. -/
theorem policySelection_perm_invariant_witness :
    List.Perm [demoPolicyA, demoNoMatchPolicy]
      [demoNoMatchPolicy, demoPolicyA] ∧
    PolicySelection demoLabels [demoPolicyA, demoNoMatchPolicy] =
      PolicySelection demoLabels [demoNoMatchPolicy, demoPolicyA] :=
  ⟨List.Perm.swap demoNoMatchPolicy demoPolicyA [],
   policySelection_perm_invariant demoLabels
     (List.Perm.swap demoNoMatchPolicy demoPolicyA [])⟩

/-- C3: A candidate whose node-selector conversion fails is treated as
non-matching and excluded: wherever it sits in the candidate list,
`PolicySelection` returns exactly what it returns on the list without it —
the selection terminates normally with the result determined by the
remaining candidates.  (Conversion failure is only logged by the Go code;
the log is not part of the embedding.) -/
theorem policySelection_excludes_unparseable (L : Labels)
    (p : CiliumBGPPeeringPolicy)
    (h : ∃ e, LabelSelectorAsSelector p.nodeSelector = .error e) :
    policyMatches L p = false ∧
    ∀ pre post, PolicySelection L (pre ++ p :: post) =
      PolicySelection L (pre ++ post) := by
  obtain ⟨e, he⟩ := h
  have hm : policyMatches L p = false := by
    unfold policyMatches
    rw [he]
  refine ⟨hm, fun pre post => ?_⟩
  rw [policySelection_eq_selectionOf, policySelection_eq_selectionOf,
    List.filter_append, List.filter_append,
    List.filter_cons_of_neg (by simp [hm])]

/-- Witness for C3: a conversion-failing policy whose matcher would accept
everything is nevertheless excluded, and selection over the remaining
candidate proceeds as if it were absent. -/
theorem policySelection_excludes_unparseable_witness :
    LabelSelectorAsSelector demoBadPolicy.nodeSelector =
      .error "invalid label selector" ∧
    policyMatches demoLabels demoBadPolicy = false ∧
    PolicySelection demoLabels [demoBadPolicy, demoPolicyA] =
      PolicySelection demoLabels [demoPolicyA] :=
  ⟨rfl,
   (policySelection_excludes_unparseable demoLabels demoBadPolicy
     ⟨"invalid label selector", rfl⟩).1,
   (policySelection_excludes_unparseable demoLabels demoBadPolicy
     ⟨"invalid label selector", rfl⟩).2 [] [demoPolicyA]⟩

/-- C4: When a policy is selected but `NewAnnotationMap` fails on the
node's annotations, `Reconcile` returns the parse error and issues no
backend call at all in that attempt — in particular `ConfigurePeers` is
never invoked, so no partial configuration is pushed. -/
theorem reconcile_annotation_parse_aborts (env : ReconcileEnv)
    (policies : List CiliumBGPPeeringPolicy) (labels : Labels)
    (annos : List (String × String)) (policy : CiliumBGPPeeringPolicy)
    (h1 : env.listPolicies = .ok policies)
    (h2 : env.labels = .ok labels)
    (h3 : PolicySelection labels policies = .ok (some policy))
    (h4 : env.annotations = .ok annos)
    (h5 : ∃ e, env.newAnnotationMap annos = .error e) :
    ∃ e, Reconcile env = ([], some (.annotationParseFailed e)) := by
  obtain ⟨e, he⟩ := h5
  exact ⟨e, by simp [Reconcile, h1, h2, h3, h4, he]⟩

/-- Witness for C4: a selected policy with malformed annotations — the
attempt fails and the backend-call trace is empty. -/
theorem reconcile_annotation_parse_aborts_witness :
    ∃ e, Reconcile { demoEnvBase with newAnnotationMap := demoAnnoFail } =
      ([], some (.annotationParseFailed e)) :=
  reconcile_annotation_parse_aborts
    { demoEnvBase with newAnnotationMap := demoAnnoFail }
    [demoPolicyA] demoLabels [] demoPolicyA rfl rfl rfl rfl
    ⟨"malformed annotation", rfl⟩

/-- C5: A retrieval error aborts the attempt with no backend call: if
listing policies fails, or listing succeeds and reading labels fails,
`Reconcile` returns that error with an empty backend-call trace; and
whenever `Reconcile` returns any retrieval error (listing, labels,
annotations or pod CIDRs), its backend-call trace is empty — prior backend
state is left untouched. -/
theorem reconcile_retrieval_error_frame (env : ReconcileEnv) :
    (∀ e, env.listPolicies = .error e →
        Reconcile env = ([], some .listPoliciesFailed)) ∧
    (∀ ps e, env.listPolicies = .ok ps → env.labels = .error e →
        Reconcile env = ([], some (.labelsFailed e))) ∧
    (∀ err, (Reconcile env).2 = some err → err.isRetrievalError = true →
        (Reconcile env).1 = []) := by
  refine ⟨fun e h => by simp [Reconcile, h],
    fun ps e h1 h2 => by simp [Reconcile, h1, h2],
    fun err h hr => ?_⟩
  unfold Reconcile at h ⊢
  cases hl : env.listPolicies with
  | error e => simp [hl]
  | ok policies =>
    simp only [hl] at h ⊢
    cases hlab : env.labels with
    | error e => simp [hlab]
    | ok labels =>
      simp only [hlab] at h ⊢
      cases hsel : PolicySelection labels policies with
      | error e =>
        simp only [hsel] at h
        simp only [Prod.snd, Option.some.injEq] at h
        rw [← h] at hr
        simp [ReconcileError.isRetrievalError] at hr
      | ok osel =>
        cases osel with
        | none =>
          simp only [hsel] at h
          simp at h
        | some policy =>
          simp only [hsel] at h ⊢
          cases han : env.annotations with
          | error e => simp [han]
          | ok annos =>
            simp only [han] at h ⊢
            cases hpm : env.newAnnotationMap annos with
            | error e => simp [hpm]
            | ok annoMap =>
              simp only [hpm] at h ⊢
              cases hcidr : env.podCIDRs with
              | error e => simp [hcidr]
              | ok podCIDRs =>
                simp only [hcidr] at h ⊢
                cases hcp : env.configurePeers (some policy)
                    (some { podCIDRs := podCIDRs,
                            annotations := annoMap,
                            ipv4 := env.ipv4, ipv6 := env.ipv6 }) with
                | some e =>
                  simp only [hcp, Prod.snd, Option.some.injEq] at h
                  rw [← h] at hr
                  simp [ReconcileError.isRetrievalError] at hr
                | none =>
                  simp only [hcp] at h
                  simp at h

/-- Witness for C5: a failing policy listing gives an error and an empty
backend-call trace. -/
theorem reconcile_retrieval_error_frame_witness :
    Reconcile { demoEnvBase with listPolicies := .error "lister closed" } =
      ([], some .listPoliciesFailed) :=
  (reconcile_retrieval_error_frame
    { demoEnvBase with listPolicies := .error "lister closed" }).1
    "lister closed" rfl

/-- C6: When `PolicySelection` fails (the only selection error being
`ErrMultiplePolicies`), `Reconcile` issues the full-withdrawal call
`ConfigurePeers(nil, nil)` and returns the error to its caller, and the
`Run` loop, having logged the failed attempt, continues with the next
events instead of terminating. -/
theorem reconcile_selection_error_withdraws (env : ReconcileEnv)
    (ps : List CiliumBGPPeeringPolicy) (labels : Labels)
    (e : SelectionError) (rest : List LoopEvent)
    (h1 : env.listPolicies = .ok ps)
    (h2 : env.labels = .ok labels)
    (h3 : PolicySelection labels ps = .error e) :
    Reconcile env = (FullWithdrawalCalls, some (.selectionFailed e)) ∧
    Run (.signal env :: rest) =
      .reconcileAttempt FullWithdrawalCalls (some (.selectionFailed e)) ::
        Run rest := by
  have hrec : Reconcile env =
      (FullWithdrawalCalls, some (.selectionFailed e)) := by
    simp [Reconcile, h1, h2, h3, FullWithdrawal]
  exact ⟨hrec, by simp [Run, hrec]⟩

/-- Witness for C6: two matching policies — the attempt withdraws, errors,
and the loop goes on to shut down orderly on the next event. -/
theorem reconcile_selection_error_withdraws_witness :
    Reconcile { demoEnvBase with listPolicies := .ok [demoPolicyA, demoPolicyB] } =
      (FullWithdrawalCalls, some (.selectionFailed .multiplePolicies)) ∧
    Run (.signal { demoEnvBase with listPolicies := .ok [demoPolicyA, demoPolicyB] } ::
        [LoopEvent.ctxDone]) =
      .reconcileAttempt FullWithdrawalCalls
          (some (.selectionFailed .multiplePolicies)) ::
        Run [LoopEvent.ctxDone] :=
  reconcile_selection_error_withdraws
    { demoEnvBase with listPolicies := .ok [demoPolicyA, demoPolicyB] }
    [demoPolicyA, demoPolicyB] demoLabels .multiplePolicies
    [LoopEvent.ctxDone] rfl rfl rfl

/-- An `Event` call never changes a Signaler's channel capacity. -/
lemma signaler_event_capacity (s : Signaler) :
    s.Event.capacity = s.capacity := by
  unfold Signaler.Event
  split <;> rfl

/-- An `Event` call never overfills the buffer: tokens pending stay within the
channel capacity. -/
lemma signaler_event_pending_le (s : Signaler) (h : s.pending ≤ s.capacity) :
    s.Event.pending ≤ s.capacity := by
  unfold Signaler.Event
  split
  next hlt => exact hlt
  next => exact h

/-- Any number of `Event` calls keeps the pending-token count within the
initial capacity. -/
lemma eventCalls_pending_le (n : Nat) (s : Signaler)
    (h : s.pending ≤ s.capacity) :
    (eventCalls n s).pending ≤ s.capacity := by
  induction n generalizing s with
  | zero => exact h
  | succ n ih =>
    show (eventCalls n s.Event).pending ≤ s.capacity
    have h2 := ih s.Event
      (by rw [signaler_event_capacity]; exact signaler_event_pending_le s h)
    rwa [signaler_event_capacity] at h2

/-- C7: A Signaler constructed by `NewSignaler` has a capacity-1 coalescing
buffer: after any sequence of `Event()` calls at most one token is pending;
with no token pending, `Event()` enqueues exactly one token; with a token
already pending, `Event()` is a no-op.  `Event` is a total function on the
Signaler state — the `select`/`default` embedding of the non-blocking send
never blocks and has no error result. -/
theorem signaler_capacity_one_coalescing (n : Nat) :
    (eventCalls n NewSignaler).pending ≤ 1 ∧
    (∀ s : Signaler, s.capacity = 1 → s.pending = 0 →
        s.Event = { capacity := 1, pending := 1 }) ∧
    (∀ s : Signaler, s.capacity = 1 → 1 ≤ s.pending → s.Event = s) := by
  refine ⟨eventCalls_pending_le n NewSignaler (Nat.zero_le 1),
    fun s hc hp => ?_, fun s hc hp => ?_⟩
  · obtain ⟨cap, pend⟩ := s
    simp only at hc hp
    subst hc
    subst hp
    rfl
  · unfold Signaler.Event
    rw [if_neg (by omega)]

/-- Witness for C7: five calls leave at most one token pending; the first
call on a fresh Signaler enqueues the single token; a further call on the
full buffer is a no-op. -/
theorem signaler_capacity_one_coalescing_witness :
    (eventCalls 5 NewSignaler).pending ≤ 1 ∧
    Signaler.Event NewSignaler = { capacity := 1, pending := 1 } ∧
    Signaler.Event { capacity := 1, pending := 1 } =
      { capacity := 1, pending := 1 } :=
  ⟨(signaler_capacity_one_coalescing 5).1,
   (signaler_capacity_one_coalescing 0).2.1 NewSignaler rfl rfl,
   (signaler_capacity_one_coalescing 0).2.2
     { capacity := 1, pending := 1 } rfl (Nat.le_refl 1)⟩

/-- Whether a loop action is the shutdown `FullWithdrawal`. -/
def LoopAction.isShutdownWithdrawal : LoopAction → Bool
  | .shutdownWithdrawal _ _ => true
  | _ => false

/-- C8: Once the loop observes cancellation, `Run` performs the full
withdrawal under a fresh 1-minute deadline exactly once as its final
action and returns: for any reconciliation attempts before cancellation
and any events after it, the action trace is the attempts followed by the
single shutdown withdrawal — no further attempt is started after
cancellation is observed. -/
theorem run_shutdown_withdrawal (pres : List ReconcileEnv)
    (rest : List LoopEvent) :
    Run (pres.map LoopEvent.signal ++ LoopEvent.ctxDone :: rest) =
      (pres.map fun env =>
        LoopAction.reconcileAttempt (Reconcile env).1 (Reconcile env).2)
        ++ [LoopAction.shutdownWithdrawal timeMinute FullWithdrawalCalls] ∧
    (Run (pres.map LoopEvent.signal ++ LoopEvent.ctxDone :: rest)).countP
      LoopAction.isShutdownWithdrawal = 1 := by
  have htrace : Run (pres.map LoopEvent.signal ++ LoopEvent.ctxDone :: rest) =
      (pres.map fun env =>
        LoopAction.reconcileAttempt (Reconcile env).1 (Reconcile env).2)
        ++ [LoopAction.shutdownWithdrawal timeMinute FullWithdrawalCalls] := by
    induction pres with
    | nil => simp [Run]
    | cons env pres ih => simp [Run, ih]
  refine ⟨htrace, ?_⟩
  rw [htrace, List.countP_append, List.countP_map]
  simp [Function.comp_def, LoopAction.isShutdownWithdrawal, List.countP_cons]

/-- C9: When the BGP control plane is disabled, `NewController` returns no
controller and no error before registering any lifecycle hook; when it is
enabled, the `nodeSpecer` variant of the returned controller is the one the
IPAM mode dictates. -/
theorem newController_enablement_gate (cfg : DaemonConfig) :
    (cfg.bgpControlPlaneEnabled = false →
      NewController cfg =
        { controller := none, err := none, lifecycleAppended := false }) ∧
    (cfg.bgpControlPlaneEnabled = true →
      (NewController cfg).controller =
        (specerForIPAM cfg.ipam).map
          fun k => { nodeSpec := k, sig := NewSignaler }) := by
  constructor
  · intro h
    simp [NewController, h]
  · intro h
    cases hip : cfg.ipam <;> simp [NewController, h, hip, specerForIPAM]

/-- Witness for C9: a disabled configuration yields `(nil, nil)` with no
hook; an enabled ClusterPool configuration yields the CiliumNode-backed
variant. -/
theorem newController_enablement_gate_witness :
    NewController { bgpControlPlaneEnabled := false, ipam := .kubernetes } =
      { controller := none, err := none, lifecycleAppended := false } ∧
    (NewController { bgpControlPlaneEnabled := true, ipam := .clusterPool }).controller =
      (specerForIPAM .clusterPool).map
        (fun k => { nodeSpec := k, sig := NewSignaler }) :=
  ⟨(newController_enablement_gate
      { bgpControlPlaneEnabled := false, ipam := .kubernetes }).1 rfl,
   (newController_enablement_gate
      { bgpControlPlaneEnabled := true, ipam := .clusterPool }).2 rfl⟩

/-- C10: `FullWithdrawal` discards the backend's error and returns normally
(its return type has no error component and its result never depends on the
backend's answer); consequently, whatever the backend's `ConfigurePeers`
result — the failing `demoBackendFail` included — `Reconcile` returns
success when no policy matches, and on ambiguous selection the returned
error is the selection error, which is always `ErrMultiplePolicies`, never
a withdrawal error. -/
theorem fullWithdrawal_discards_backend_error (env : ReconcileEnv)
    (ps : List CiliumBGPPeeringPolicy) (labels : Labels)
    (h1 : env.listPolicies = .ok ps)
    (h2 : env.labels = .ok labels) :
    (∀ f, FullWithdrawal { env with configurePeers := f } =
        FullWithdrawalCalls) ∧
    (PolicySelection labels ps = .ok none →
      ∀ f, Reconcile { env with configurePeers := f } =
        (FullWithdrawalCalls, none)) ∧
    (∀ e, PolicySelection labels ps = .error e →
      e = .multiplePolicies ∧
      ∀ f, (Reconcile { env with configurePeers := f }).2 =
        some (.selectionFailed .multiplePolicies)) := by
  refine ⟨fun f => rfl, fun h f => ?_, fun e h => ?_⟩
  · simp [Reconcile, h1, h2, h, FullWithdrawal, FullWithdrawalCalls]
  · cases e
    refine ⟨rfl, fun f => ?_⟩
    simp [Reconcile, h1, h2, h, FullWithdrawal, FullWithdrawalCalls]

/-- Witness for C10: with a backend failing every call (the withdrawal form
included), reconciliation with zero matching policies still succeeds, and
with two matching policies still reports exactly `ErrMultiplePolicies`. -/
theorem fullWithdrawal_discards_backend_error_witness :
    Reconcile { demoEnvBase with
        listPolicies := .ok [], configurePeers := demoBackendFail } =
      (FullWithdrawalCalls, none) ∧
    (Reconcile { demoEnvBase with
        listPolicies := .ok [demoPolicyA, demoPolicyB],
        configurePeers := demoBackendFail }).2 =
      some (.selectionFailed .multiplePolicies) :=
  ⟨(fullWithdrawal_discards_backend_error
      { demoEnvBase with
          listPolicies := .ok [], configurePeers := demoBackendFail }
      [] demoLabels rfl rfl).2.1 rfl demoBackendFail,
   ((fullWithdrawal_discards_backend_error
      { demoEnvBase with
          listPolicies := .ok [demoPolicyA, demoPolicyB],
          configurePeers := demoBackendFail }
      [demoPolicyA, demoPolicyB] demoLabels rfl rfl).2.2
      .multiplePolicies rfl).2 demoBackendFail⟩

end BGPAgent
